import Mathlib

set_option linter.unusedVariables false

/-!
Shallow embedding of `main.py` of the Research_app repository: a collection of
academic-search "adapters" (arXiv, Google Scholar via SerpAPI / scholarly,
Semantic Scholar, ResearchGate, CORE, SpringerLink, ScienceDirect) and the
aggregating search loop of `main`.  Network I/O is modelled by an environment
`Env : Request → HttpResult` mapping outgoing requests to responses, parsed
documents are modelled by per-page-shape entry structures carrying exactly the
selector results the Python code reads, and Python exceptions by `Except PyErr`.
Randomised delays consume an explicit stream of draws threaded through an
effect record `Eff` (timing and request trace), so that determinism of the
returned records in the random stream is a provable statement.
-/

/-- Python exception kinds raised by the embedded code.  `httpError` stands for
`requests.exceptions.HTTPError` raised by `raise_for_status` (a subclass of
`RequestException`); `requestException` covers connection failures and timeouts
raised by `requests.get`. -/
inductive PyErr where
  | nameError
  | requestException
  | httpError (status : Nat)
  | jsonDecodeError
  | typeError
  | attributeError
  | importError
deriving DecidableEq, Repr

/-- Membership in Python's `requests.exceptions.RequestException` class
(`HTTPError` is a subclass). -/
def PyErr.isRequestExc : PyErr → Bool
  | .requestException => true
  | .httpError _ => true
  | _ => false

/-- JSON values as returned by `response.json()`. -/
inductive JVal where
  | jnull
  | jbool (b : Bool)
  | jnum (n : Int)
  | jstr (s : String)
  | jarr (elems : List JVal)
  | jobj (fields : List (String × JVal))
deriving Repr

/-- Python truthiness of a JSON value (`if not x`). -/
def JVal.truthy : JVal → Bool
  | .jnull => false
  | .jbool b => b
  | .jnum n => n != 0
  | .jstr s => s != ""
  | .jarr xs => !xs.isEmpty
  | .jobj fs => !fs.isEmpty

/-- Python `str(x)` as used in f-strings.  Containers are abbreviated: no claim
depends on the exact text of a container's repr. -/
def JVal.pyStr : JVal → String
  | .jnull => "None"
  | .jbool b => if b then "True" else "False"
  | .jnum n => toString n
  | .jstr s => s
  | .jarr _ => "[...]"
  | .jobj _ => "\x7b...\x7d"

/-- Python `d.get(k, default)`: a present key returns its value (even an
explicit `null`); a missing key returns the default; `.get` on a non-dict
raises `AttributeError`. -/
def JVal.get (v : JVal) (k : String) (d : JVal) : Except PyErr JVal :=
  match v with
  | .jobj fs => .ok ((fs.lookup k).getD d)
  | _ => .error .attributeError

/-- Python `for x in v` over a JSON value: iterating a non-list raises.  (In
the source, iterating a string or dict only happens on paths that end in the
same enclosing `except`-and-break, so the exact error kind is immaterial.) -/
def JVal.iter (v : JVal) : Except PyErr (List JVal) :=
  match v with
  | .jarr xs => .ok xs
  | _ => .error .typeError

/-- Python `k in d` on a parsed JSON root.  On a non-dict the source's paths
all proceed to raise inside the same `try`; we raise at the test itself. -/
def JVal.hasKey (v : JVal) (k : String) : Except PyErr Bool :=
  match v with
  | .jobj fs => .ok ((fs.lookup k).isSome)
  | _ => .error .typeError

/-- Python `", ".join(xs)` over a list of JSON values: every element must be a
string, otherwise `TypeError`. -/
def pyJoin (sep : String) (vs : List JVal) : Except PyErr String := do
  let ss ← vs.mapM (fun v => match v with
    | JVal.jstr s => Except.ok s
    | _ => Except.error PyErr.typeError)
  pure (String.intercalate sep ss)

/-- Maximal runs of non-whitespace characters (`cur` accumulates the current
run, reversed). -/
def wsWordsAux : List Char → List Char → List String
  | [], cur => if cur.isEmpty then [] else [String.mk cur.reverse]
  | c :: cs, cur =>
    if c.isWhitespace then
      (if cur.isEmpty then [] else [String.mk cur.reverse]) ++ wsWordsAux cs []
    else wsWordsAux cs (c :: cur)

/-- Model of `re.sub(r'\s+', ' ', s).strip()`: runs of whitespace collapse to
single spaces and the ends are trimmed — the whitespace-separated words of `s`
joined by single spaces. -/
def cleanWs (s : String) : String :=
  String.intercalate " " (wsWordsAux s.toList [])

/-- Model of Python `s.strip()`: drop leading and trailing whitespace. -/
def pyStrip (s : String) : String :=
  String.mk (((s.toList.dropWhile Char.isWhitespace).reverse.dropWhile Char.isWhitespace).reverse)

/-- Model of Python `s[:n]` (slice of the first `n` characters). -/
def pyTake (s : String) (n : Nat) : String :=
  String.mk (s.toList.take n)

/-- Does `pat` occur at the head of `s`? -/
def startsWithList : List Char → List Char → Bool
  | _, [] => true
  | [], _ :: _ => false
  | c :: cs, d :: ds => c == d && startsWithList cs ds

/-- Does `pat` occur anywhere in `s`? -/
def containsList : List Char → List Char → Bool
  | [], pat => pat.isEmpty
  | c :: rest, pat => startsWithList (c :: rest) pat || containsList rest pat

/-- Model of Python `s.startswith(p)`. -/
def strStartsWith (s p : String) : Bool :=
  startsWithList s.toList p.toList

/-- Uppercase hex digit, for percent-encoding. -/
def hexDigitChar (n : Nat) : Char :=
  if n < 10 then Char.ofNat (48 + n) else Char.ofNat (55 + n)

/-- Model of `urllib.parse.quote` with the default `safe='/'`, over the UTF-8
bytes of the string. -/
def urlQuote (s : String) : String :=
  String.join (s.toUTF8.toList.map (fun b =>
    let n := b.toNat
    if (48 ≤ n && n ≤ 57) || (65 ≤ n && n ≤ 90) || (97 ≤ n && n ≤ 122)
        || n == 45 || n == 46 || n == 95 || n == 126 || n == 47
    then String.singleton (Char.ofNat n)
    else "%" ++ String.singleton (hexDigitChar (n / 16)) ++ String.singleton (hexDigitChar (n % 16))))

/-- Python `needle in haystack` on strings. -/
def strContains (haystack needle : String) : Bool :=
  containsList haystack.toList needle.toList

/-- A parsed HTML/XML element as the adapters read it through BeautifulSoup:
its text content and its attribute dict. -/
structure Elem where
  text : String
  attrs : List (String × String)
deriving Repr, DecidableEq

/-- Model of `tag.get(k, d)` on a BeautifulSoup tag. -/
def Elem.getAttr (e : Elem) (k : String) (d : String) : String :=
  (e.attrs.lookup k).getD d

/-- Model of `tag.get(k)` (default `None`). -/
def Elem.getAttrOpt (e : Elem) (k : String) : Option String :=
  e.attrs.lookup k

/-- One `author` element of an arXiv feed entry; `nameEl` is
`author.find('name')`. -/
structure ArxivAuthor where
  nameEl : Option Elem
deriving Repr, DecidableEq

/-- One `entry` element of the arXiv Atom response, carrying exactly the
selector results `search_arxiv` reads: `find('title')`, `find_all('author')`,
`find('summary')`, `find('id')`, `find_all('link')`, `find('published')`. -/
structure ArxivEntry where
  titleEl : Option Elem
  authors : List ArxivAuthor
  summaryEl : Option Elem
  idEl : Option Elem
  linkEls : List Elem
  publishedEl : Option Elem
deriving Repr, DecidableEq

/-- One `div.search-result-item` of a ResearchGate search page, carrying the
selector results `search_research_gate` reads: `select_one('a.search-result-title')`,
`select('div.publication-author-list span[itemprop="name"]')`,
`select_one('div.publication-meta-date')`, `select_one('div.publication-meta-stats')`. -/
structure RGEntry where
  titleEl : Option Elem
  authorEls : List Elem
  pubDateEl : Option Elem
  statsEl : Option Elem
deriving Repr, DecidableEq

/-- One `div.result-item` of a Semantic Scholar search page (scrape variant):
`select_one('a.search-result-title')`, `select('a.author-list__link')`,
`select_one('div.search-result-abstract')`, `select_one('span.citation-stat__count')`. -/
structure SSEntry where
  titleEl : Option Elem
  authorEls : List Elem
  abstractEl : Option Elem
  citeEl : Option Elem
deriving Repr, DecidableEq

/-- One `article.search-result` of a CORE search page: `select_one('h3.title a')`,
`select_one('div.authors')`, `select_one('div.description')`,
`select_one('div.publisher')`. -/
structure CoreEntry where
  titleEl : Option Elem
  authorEl : Option Elem
  abstractEl : Option Elem
  pubEl : Option Elem
deriving Repr, DecidableEq

/-- One `li.has-cover` of a SpringerLink search page: `select_one('h2 a')`,
`select('span.authors__name')`, `select_one('p.meta')`,
`select_one('span.content-type')`. -/
structure SpringerEntry where
  titleEl : Option Elem
  authorEls : List Elem
  dateEl : Option Elem
  typeEl : Option Elem
deriving Repr, DecidableEq

/-- One `li.ResultItem` of a ScienceDirect search page: `select_one('h2 a')`,
`select('.Authors li')`, `select_one('.SubType')`,
`select_one('.srctitle-date-fields')`, `select_one('.ResultText')`. -/
structure SDEntry where
  titleEl : Option Elem
  authorEls : List Elem
  subTypeEl : Option Elem
  srcDateEl : Option Elem
  resultTextEl : Option Elem
deriving Repr, DecidableEq

/-- Response bodies, already parsed one level: `jsonB` is a JSON document (the
value `response.json()` yields); the per-site constructors carry the entry
lists the site-specific CSS/XML selectors would extract; `rawB` is any other
document.  An adapter selecting its entries from a body of a different shape
finds none (BeautifulSoup selectors return an empty list on an alien
document), while `.json()` on a non-JSON body raises. -/
inductive Body where
  | jsonB (v : JVal)
  | arxivB (entries : List ArxivEntry)
  | rgB (entries : List RGEntry)
  | ssB (entries : List SSEntry)
  | coreB (entries : List CoreEntry)
  | springerB (entries : List SpringerEntry)
  | sdB (entries : List SDEntry)
  | rawB (s : String)

/-- Model of `response.json()`: raises on a non-JSON body. -/
def Body.json : Body → Except PyErr JVal
  | .jsonB v => .ok v
  | _ => .error .jsonDecodeError

/-- Entries `soup.find_all('entry')` finds (arXiv feed shape). -/
def Body.arxivEntries : Body → List ArxivEntry
  | .arxivB es => es
  | _ => []

/-- Entries `soup.select('div.search-result-item')` finds (ResearchGate shape). -/
def Body.rgEntries : Body → List RGEntry
  | .rgB es => es
  | _ => []

/-- Entries `soup.select('div.result-item')` finds (Semantic Scholar shape). -/
def Body.ssEntries : Body → List SSEntry
  | .ssB es => es
  | _ => []

/-- Entries `soup.select('article.search-result')` finds (CORE shape). -/
def Body.coreEntries : Body → List CoreEntry
  | .coreB es => es
  | _ => []

/-- Entries `soup.select('li.has-cover')` finds (SpringerLink shape). -/
def Body.springerEntries : Body → List SpringerEntry
  | .springerB es => es
  | _ => []

/-- Entries `soup.select('li.ResultItem')` finds (ScienceDirect shape). -/
def Body.sdEntries : Body → List SDEntry
  | .sdB es => es
  | _ => []

/-- An outgoing HTTP GET: its URL (query parameters included) and headers. -/
structure Request where
  url : String
  headers : List (String × String)

/-- Outcome of `requests.get`: either a raised `RequestException` (connection
failure or timeout), or a response with a status code, a final URL (after
redirects, `response.url`) and a body. -/
inductive HttpResult where
  | fail
  | resp (status : Nat) (finalUrl : String) (body : Body)

/-- The remote world: a fixed mapping from outgoing requests to responses. -/
def Env : Type := Request → HttpResult

/-- Observable effects of a run: the remaining stream of random draws, the
recorded sleeps, and the trace of requests issued. -/
structure Eff where
  rng : List Nat
  sleeps : List Nat
  reqs : List Request

/-- Model of `time.sleep(random.uniform(lo, hi))`: consume one draw from the
stream and record a sleep.  The drawn duration influences timing only; the
bounds are not modelled (abstract time units). -/
def Eff.drawSleep (e : Eff) : Eff :=
  match e.rng with
  | [] => { e with sleeps := e.sleeps ++ [0] }
  | d :: rest => { rng := rest, sleeps := e.sleeps ++ [d], reqs := e.reqs }

/-- Model of `time.sleep(n)` with a fixed duration. -/
def Eff.sleepFixed (e : Eff) (n : Nat) : Eff :=
  { e with sleeps := e.sleeps ++ [n] }

/-- Record an outgoing `requests.get` in the trace. -/
def Eff.logReq (e : Eff) (r : Request) : Eff :=
  { e with reqs := e.reqs ++ [r] }

/-- The paper dict every adapter appends: the six keys `title`, `authors`,
`abstract`, `citations`, `link`, `source`.  Field values are Python values
(`JVal`): scrape adapters always store strings, but the API-backed adapters
can store whatever the remote JSON supplied — including `None`. -/
structure PaperRecord where
  title : JVal
  authors : JVal
  abstract : JVal
  citations : JVal
  link : JVal
  source : JVal
deriving Repr

/-- Mapping of one arXiv `entry` to a paper dict — the body of the
`for entry in entries` loop of `search_arxiv` (main.py 287–319). -/
def arxivEntryToRecord (e : ArxivEntry) : PaperRecord :=
  let title := cleanWs (match e.titleEl with | some t => t.text | none => "No title available")
  let authorNames := (e.authors.filterMap (fun a => a.nameEl)).map Elem.text
  let authorsText := if authorNames.isEmpty then "No authors available"
    else String.intercalate ", " authorNames
  let abstract := cleanWs (match e.summaryEl with | some s => s.text | none => "No abstract available")
  let link := match e.idEl with | some i => i.text | none => ""
  let pdfLink : Option String :=
    (e.linkEls.find? (fun l => l.getAttrOpt "title" == some "pdf")).bind
      (fun l => l.getAttrOpt "href")
  let finalLink := match pdfLink with
    | some s => if s == "" then link else s
    | none => link
  let published := match e.publishedEl with | some p => pyTake p.text 10 | none => "Date unknown"
  { title := .jstr title, authors := .jstr authorsText, abstract := .jstr abstract,
    citations := .jstr ("Published: " ++ published), link := .jstr finalLink,
    source := .jstr "arXiv" }

/-- Embedding of `search_arxiv` (main.py 269–325).  A raised
`RequestException` — connection failure, timeout, or the `HTTPError` from
`raise_for_status` on a 4xx/5xx status — is caught by the function's only
`except` clause, which returns `[]`.  Parsing is total: an alien body simply
yields no `entry` elements. -/
def search_arxiv (env : Env) (query : String) (maxResults : Nat) :
    Except PyErr (List PaperRecord) :=
  let formattedQuery := query.replace " " "+"
  let url := "http://export.arxiv.org/api/query?search_query=all:" ++ formattedQuery
      ++ "&start=0&max_results=" ++ toString maxResults
  match env { url := url, headers := [] } with
  | .fail => .ok []
  | .resp status _ body =>
    if 400 ≤ status ∧ status < 600 then .ok []
    else .ok (((body.arxivEntries).map arxivEntryToRecord).take maxResults)

/-- Python dict assignment `d[k] = v` on a string-keyed dict: replaces the
value in place when the key exists (insertion order preserved), appends
otherwise. -/
def setHeader : List (String × String) → String → String → List (String × String)
  | [], k, v => [(k, v)]
  | (k', v') :: rest, k, v =>
    if k' == k then (k, v) :: rest else (k', v') :: setHeader rest k v

/-- The initial `headers` dict of `search_research_gate` (main.py 335–352). -/
def rgHeaders : List (String × String) :=
  [("User-Agent", "Mozilla/5.0 (Windows NT 10.0; Win64; x64) AppleWebKit/537.36 (KHTML, like Gecko) Chrome/114.0.0.0 Safari/537.36"),
   ("Accept", "text/html,application/xhtml+xml,application/xml;q=0.9,image/avif,image/webp,image/apng,*/*;q=0.8"),
   ("Accept-Language", "en-US,en;q=0.9"),
   ("Accept-Encoding", "gzip, deflate, br"),
   ("Referer", "https://www.google.com/search?q=research+papers+researchgate"),
   ("Connection", "keep-alive"),
   ("Upgrade-Insecure-Requests", "1"),
   ("Cache-Control", "max-age=0"),
   ("sec-ch-ua", "\"Google Chrome\";v=\"114\", \"Chromium\";v=\"114\", \"Not=A?Brand\";v=\"99\""),
   ("sec-ch-ua-mobile", "?0"),
   ("sec-ch-ua-platform", "\"Windows\""),
   ("sec-fetch-dest", "document"),
   ("sec-fetch-mode", "navigate"),
   ("sec-fetch-site", "cross-site"),
   ("sec-fetch-user", "?1"),
   ("DNT", "1")]

/-- The alternate user-agent pool `user_agents` of `search_research_gate`
(main.py 368–372), rotated on a 403 response. -/
def rgUserAgents : List String :=
  ["Mozilla/5.0 (Macintosh; Intel Mac OS X 10_15_7) AppleWebKit/605.1.15 (KHTML, like Gecko) Version/16.0 Safari/605.1.15",
   "Mozilla/5.0 (X11; Linux x86_64) AppleWebKit/537.36 (KHTML, like Gecko) Chrome/113.0.0.0 Safari/537.36",
   "Mozilla/5.0 (Windows NT 10.0; Win64; x64) AppleWebKit/537.36 (KHTML, like Gecko) Chrome/113.0.0.0 Safari/537.36 Edg/113.0.1774.57"]

/-- Mapping of one ResearchGate search-result entry to a paper dict
(main.py 383–418). -/
def rgEntryToRecord (e : RGEntry) : PaperRecord :=
  let title := match e.titleEl with | some t => pyStrip t.text | none => "No title available"
  let link := match e.titleEl with
    | some t =>
      let href := t.getAttr "href" ""
      if strStartsWith href "/" then "https://www.researchgate.net" ++ href else href
    | none => ""
  let authorsText := if e.authorEls.isEmpty then "No authors available"
    else String.intercalate ", " (e.authorEls.map (fun a => pyStrip a.text))
  let abstract := "Abstract not available in search results. Click the link to view full details."
  let pubDate := match e.pubDateEl with | some d => pyStrip d.text | none => ""
  let citationText := match e.statsEl with | some c => pyStrip c.text | none => "Metrics not available"
  let pubInfo := (if pubDate != "" then [pubDate] else [])
    ++ (if citationText != "" && citationText != "Metrics not available" then [citationText] else [])
  let combinedInfo := if pubInfo.isEmpty then "Publication info not available"
    else String.intercalate " | " pubInfo
  { title := .jstr title, authors := .jstr authorsText, abstract := .jstr abstract,
    citations := .jstr combinedInfo, link := .jstr link, source := .jstr "ResearchGate" }

/-- The retry loop `for retry in range(max_retries)` of `search_research_gate`
(main.py 359–418): `remaining` iterations are left and `retry` is the current
index.  On a 403 the headers rotate (`user_agents[retry % 3]`) and the loop
continues; on success the parsed entries (capped at `max_results`) are
appended to `papers` — and, the loop body containing no break or return, the
next iteration then runs anyway.  `return papers` only happens after the loop
ends. -/
def rgLoop (env : Env) (url : String) (maxResults : Nat) :
    Nat → Nat → List (String × String) → List PaperRecord → Eff →
    (Except PyErr (List PaperRecord)) × Eff
  | 0, _, _, papers, e => (.ok papers, e)
  | remaining + 1, retry, headers, papers, e =>
    let e := if 0 < retry then e.drawSleep else e
    let req : Request := { url := url, headers := headers }
    let e := e.logReq req
    match env req with
    | .fail => (.error .requestException, e)
    | .resp status _ body =>
      if status == 403 then
        let headers := setHeader headers "User-Agent"
            (rgUserAgents.getD (retry % rgUserAgents.length) "")
        let headers := setHeader headers "Referer" "https://scholar.google.com/"
        rgLoop env url maxResults remaining (retry + 1) headers papers e
      else if 400 ≤ status ∧ status < 600 then (.error (.httpError status), e)
      else
        let entries := body.rgEntries
        if entries.isEmpty then
          rgLoop env url maxResults remaining (retry + 1) headers papers e
        else
          rgLoop env url maxResults remaining (retry + 1) headers
            (papers ++ (entries.take maxResults).map rgEntryToRecord) e

/-- An `except requests.exceptions.RequestException: ...; return []` clause
around a computation: a raised request error (the `HTTPError` of
`raise_for_status` included) becomes the empty list. -/
def reqExcCatch (p : (Except PyErr (List PaperRecord)) × Eff) :
    (Except PyErr (List PaperRecord)) × Eff :=
  match p with
  | (.ok papers, e') => (.ok papers, e')
  | (.error err, e') => if err.isRequestExc then (.ok [], e') else (.error err, e')

/-- Embedding of `search_research_gate` (main.py 327–423).  The function's only
`except` clause catches `requests.exceptions.RequestException` and returns
`[]`. -/
def search_research_gate (env : Env) (query : String) (maxResults : Nat) (e : Eff) :
    (Except PyErr (List PaperRecord)) × Eff :=
  let url := "https://www.researchgate.net/search/publication?q=" ++ urlQuote query
  reqExcCatch (rgLoop env url maxResults 3 0 rgHeaders [] e)

/-- Headers of the Semantic Scholar scrape variant (main.py 432–435). -/
def ssHeaders : List (String × String) :=
  [("User-Agent", "Mozilla/5.0 (Windows NT 10.0; Win64; x64) AppleWebKit/537.36 (KHTML, like Gecko) Chrome/91.0.4472.124 Safari/537.36"),
   ("Accept", "text/html,application/xhtml+xml,application/xml;q=0.9,*/*;q=0.8")]

/-- Mapping of one Semantic Scholar scrape entry to a paper dict
(main.py 450–479).  The link gets the site prefix unconditionally. -/
def ssEntryToRecord (e : SSEntry) : PaperRecord :=
  let title := match e.titleEl with | some t => pyStrip t.text | none => "No title available"
  let link := match e.titleEl with
    | some t => "https://www.semanticscholar.org" ++ t.getAttr "href" ""
    | none => ""
  let authorsText := if e.authorEls.isEmpty then "No authors available"
    else String.intercalate ", " (e.authorEls.map Elem.text)
  let abstract := match e.abstractEl with | some a => pyStrip a.text | none => "No abstract available"
  let citationText := match e.citeEl with
    | some c => "Cited by " ++ c.text
    | none => "Citations not available"
  { title := .jstr title, authors := .jstr authorsText, abstract := .jstr abstract,
    citations := .jstr citationText, link := .jstr link, source := .jstr "Semantic Scholar" }

/-- Embedding of the second (scrape-based) definition of
`search_semantic_scholar` (main.py 425–485). -/
def search_semantic_scholar_scrape (env : Env) (query : String) (maxResults : Nat) :
    Except PyErr (List PaperRecord) :=
  let url := "https://www.semanticscholar.org/search?q=" ++ urlQuote query ++ "&sort=relevance"
  match env { url := url, headers := ssHeaders } with
  | .fail => .ok []
  | .resp status _ body =>
    if 400 ≤ status ∧ status < 600 then .ok []
    else .ok ((((body.ssEntries).take maxResults).map ssEntryToRecord).take maxResults)

/-- Headers of `search_core` (main.py 494–496). -/
def coreHeaders : List (String × String) :=
  [("User-Agent", "Mozilla/5.0 (Windows NT 10.0; Win64; x64) AppleWebKit/537.36 (KHTML, like Gecko) Chrome/91.0.4472.124 Safari/537.36")]

/-- Mapping of one CORE search-result entry to a paper dict (main.py 509–538). -/
def coreEntryToRecord (e : CoreEntry) : PaperRecord :=
  let title := match e.titleEl with | some t => pyStrip t.text | none => "No title available"
  let link := match e.titleEl with
    | some t =>
      let href := t.getAttr "href" ""
      if strStartsWith href "/" then "https://core.ac.uk" ++ href else href
    | none => ""
  let authorsText := match e.authorEl with | some a => pyStrip a.text | none => "No authors available"
  let abstract := match e.abstractEl with | some a => pyStrip a.text | none => "No abstract available"
  let pubText := match e.pubEl with | some p => pyStrip p.text | none => "Publication info not available"
  { title := .jstr title, authors := .jstr authorsText, abstract := .jstr abstract,
    citations := .jstr pubText, link := .jstr link, source := .jstr "CORE" }

/-- Embedding of `search_core` (main.py 487–544). -/
def search_core (env : Env) (query : String) (maxResults : Nat) :
    Except PyErr (List PaperRecord) :=
  let url := "https://core.ac.uk/search?q=" ++ urlQuote query
  match env { url := url, headers := coreHeaders } with
  | .fail => .ok []
  | .resp status _ body =>
    if 400 ≤ status ∧ status < 600 then .ok []
    else .ok ((((body.coreEntries).take maxResults).map coreEntryToRecord).take maxResults)

/-- Headers of `search_springer` (main.py 553–555), same single entry as CORE. -/
def springerHeaders : List (String × String) := coreHeaders

/-- Mapping of one SpringerLink search-result entry to a paper dict
(main.py 568–600). -/
def springerEntryToRecord (e : SpringerEntry) : PaperRecord :=
  let title := match e.titleEl with | some t => pyStrip t.text | none => "No title available"
  let link := match e.titleEl with
    | some t =>
      let href := t.getAttr "href" ""
      if strStartsWith href "/" then "https://link.springer.com" ++ href else href
    | none => ""
  let authorsText := if e.authorEls.isEmpty then "No authors available"
    else String.intercalate ", " (e.authorEls.map (fun a => pyStrip a.text))
  let dateText := match e.dateEl with | some d => pyStrip d.text | none => "Date not available"
  let contentType := match e.typeEl with | some t => pyStrip t.text | none => "Content type not specified"
  let abstract := "Abstract not available on search page. Click the link to view full details."
  { title := .jstr title, authors := .jstr authorsText, abstract := .jstr abstract,
    citations := .jstr (contentType ++ " | " ++ dateText), link := .jstr link,
    source := .jstr "SpringerLink" }

/-- Embedding of `search_springer` (main.py 546–606). -/
def search_springer (env : Env) (query : String) (maxResults : Nat) :
    Except PyErr (List PaperRecord) :=
  let url := "https://link.springer.com/search?query=" ++ urlQuote query
  match env { url := url, headers := springerHeaders } with
  | .fail => .ok []
  | .resp status _ body =>
    if 400 ≤ status ∧ status < 600 then .ok []
    else .ok ((((body.springerEntries).take maxResults).map springerEntryToRecord).take maxResults)

/-- The initial `headers` dict of `search_science_direct` (main.py 616–631). -/
def sdHeaders : List (String × String) :=
  [("User-Agent", "Mozilla/5.0 (Windows NT 10.0; Win64; x64) AppleWebKit/537.36 (KHTML, like Gecko) Chrome/114.0.0.0 Safari/537.36"),
   ("Accept", "text/html,application/xhtml+xml,application/xml;q=0.9,image/avif,image/webp,image/apng,*/*;q=0.8"),
   ("Accept-Language", "en-US,en;q=0.9"),
   ("Accept-Encoding", "gzip, deflate, br"),
   ("Referer", "https://www.google.com/"),
   ("Connection", "keep-alive"),
   ("Upgrade-Insecure-Requests", "1"),
   ("sec-ch-ua", "\"Google Chrome\";v=\"114\", \"Chromium\";v=\"114\", \"Not=A?Brand\";v=\"99\""),
   ("sec-ch-ua-mobile", "?0"),
   ("sec-ch-ua-platform", "\"Windows\""),
   ("sec-fetch-dest", "document"),
   ("sec-fetch-mode", "navigate"),
   ("sec-fetch-site", "none"),
   ("sec-fetch-user", "?1")]

/-- The single alternate user-agent `search_science_direct` switches to on an
`unsupported_browser` redirect (main.py 649). -/
def sdAltUserAgent : String :=
  "Mozilla/5.0 (Macintosh; Intel Mac OS X 10_15_7) AppleWebKit/605.1.15 (KHTML, like Gecko) Version/16.0 Safari/605.1.15"

/-- Mapping of one ScienceDirect search-result entry to a paper dict
(main.py 663–700).  The `pub_info` parts are included on element presence
(`if pub_element:`), unlike ResearchGate which tests the text. -/
def sdEntryToRecord (e : SDEntry) : PaperRecord :=
  let title := match e.titleEl with | some t => pyStrip t.text | none => "No title available"
  let link := match e.titleEl with
    | some t =>
      let href := t.getAttr "href" ""
      if strStartsWith href "/" then "https://www.sciencedirect.com" ++ href else href
    | none => ""
  let authorsText := if e.authorEls.isEmpty then "No authors available"
    else String.intercalate ", " (e.authorEls.map (fun a => pyStrip a.text))
  let pubInfo := (match e.subTypeEl with | some p => [pyStrip p.text] | none => [])
    ++ (match e.srcDateEl with | some d => [pyStrip d.text] | none => [])
  let pubText := if pubInfo.isEmpty then "Publication info not available"
    else String.intercalate " | " pubInfo
  let abstract := match e.resultTextEl with | some a => pyStrip a.text | none => "No abstract available"
  { title := .jstr title, authors := .jstr authorsText, abstract := .jstr abstract,
    citations := .jstr pubText, link := .jstr link, source := .jstr "ScienceDirect" }

/-- Embedding of `search_science_direct` (main.py 608–706): a randomized delay,
a first request, on an `unsupported_browser` final URL a fixed delay plus one
retry with the single alternate user-agent — giving up (returning `[]`) if the
second response is again an `unsupported_browser` redirect — then
`raise_for_status` and parsing.  The `except RequestException` clause returns
`[]`. -/
def search_science_direct (env : Env) (query : String) (maxResults : Nat) (e : Eff) :
    (Except PyErr (List PaperRecord)) × Eff :=
  let url := "https://www.sciencedirect.com/search?qs=" ++ urlQuote query
  let headers := sdHeaders
  let e := e.drawSleep
  let req : Request := { url := url, headers := headers }
  let e := e.logReq req
  match env req with
  | .fail => (.ok [], e)
  | .resp status finalUrl body =>
    if strContains finalUrl "unsupported_browser" then
      let e := e.sleepFixed 2
      let headers := setHeader headers "User-Agent" sdAltUserAgent
      let req2 : Request := { url := url, headers := headers }
      let e := e.logReq req2
      match env req2 with
      | .fail => (.ok [], e)
      | .resp status2 finalUrl2 body2 =>
        if strContains finalUrl2 "unsupported_browser" then (.ok [], e)
        else if 400 ≤ status2 ∧ status2 < 600 then (.ok [], e)
        else (.ok ((((body2.sdEntries).take maxResults).map sdEntryToRecord).take maxResults), e)
    else if 400 ≤ status ∧ status < 600 then (.ok [], e)
    else (.ok ((((body.sdEntries).take maxResults).map sdEntryToRecord).take maxResults), e)

/-- Request issued by `requests.get("https://serpapi.com/search", params=params)`
for one page (main.py 34–62), the parameter encoding abstracted into the URL. -/
def serpRequest (query apiKey : String) (start : Nat) : Request :=
  { url := "https://serpapi.com/search?engine=google_scholar&q=" ++ urlQuote query
      ++ "&api_key=" ++ urlQuote apiKey ++ "&hl=en&as_sdt=0%2C5&start=" ++ toString start,
    headers := [] }

/-- Mapping of one SerpAPI organic result to a paper dict (main.py 87–113).
Values present in the JSON — explicit nulls included — are passed through by
`.get`; a `.get` on a non-dict raises into the page loop's `except`. -/
def serpItemToRecord (result : JVal) : Except PyErr PaperRecord := do
  let title ← result.get "title" (.jstr "No title available")
  let link ← result.get "link" (.jstr "")
  let pubInfo ← result.get "publication_info" (.jobj [])
  let authorsText ← pubInfo.get "summary" (.jstr "No author information")
  let snippet ← result.get "snippet" (.jstr "No abstract available")
  let inlineLinks ← result.get "inline_links" (.jobj [])
  let citationInfo ← inlineLinks.get "cited_by" (.jobj [])
  let citationCount ← citationInfo.get "total" (.jnum 0)
  let citationText := if citationCount.truthy then "Cited by " ++ citationCount.pyStr
    else "Citations not available"
  pure { title := title, authors := authorsText, abstract := snippet,
         citations := .jstr citationText, link := link,
         source := .jstr "Google Scholar via SerpAPI" }

/-- The `for result in organic_results` loop (main.py 87–117): appends one
record per item, breaking once `num_results` records are accumulated.  The
returned flag records whether an exception was raised (the caller's `except`
then breaks the page loop, keeping the records appended so far). -/
def serpProcess (numResults : Nat) : List JVal → List PaperRecord → List PaperRecord × Bool
  | [], acc => (acc, false)
  | r :: rest, acc =>
    match serpItemToRecord r with
    | .error _ => (acc, true)
    | .ok rcd =>
      let acc' := acc ++ [rcd]
      if numResults ≤ acc'.length then (acc', false)
      else serpProcess numResults rest acc'

/-- Outcome of handling one parsed SerpAPI page: break out of the page loop or
continue to the next page, in both cases with the updated accumulator. -/
inductive PageStep where
  | brk (acc : List PaperRecord)
  | cont (acc : List PaperRecord)

/-- Handling of one parsed SerpAPI JSON document (main.py 75–121): break on an
`"error"` key, on a missing/falsy `organic_results`, on a raised exception, or
once enough papers are collected. -/
def serpHandleData (data : JVal) (numResults : Nat) (acc : List PaperRecord) : PageStep :=
  match data.hasKey "error" with
  | .error _ => .brk acc
  | .ok true => .brk acc
  | .ok false =>
    match data.get "organic_results" (.jarr []) with
    | .error _ => .brk acc
    | .ok org =>
      if !org.truthy then .brk acc
      else match org.iter with
        | .error _ => .brk acc
        | .ok results =>
          match serpProcess numResults results acc with
          | (acc', true) => .brk acc'
          | (acc', false) => if numResults ≤ acc'.length then .brk acc' else .cont acc'

/-- The `for page in range(num_pages)` loop of
`search_google_scholar_with_serpapi` (main.py 51–128): each page body sits in
a `try` whose `except Exception` breaks, so no error escapes the loop; a
randomized delay separates consecutive pages. -/
def serpPages (env : Env) (query apiKey : String) (numResults : Nat) :
    Nat → Nat → List PaperRecord → Eff → List PaperRecord × Eff
  | 0, _, acc, e => (acc, e)
  | remaining + 1, page, acc, e =>
    let req := serpRequest query apiKey (page * 10)
    let e := e.logReq req
    match env req with
    | .fail => (acc, e)
    | .resp status _ body =>
      if status != 200 then (acc, e)
      else match body.json with
        | .error _ => (acc, e)
        | .ok data =>
          match serpHandleData data numResults acc with
          | .brk acc' => (acc', e)
          | .cont acc' =>
            serpPages env query apiKey numResults remaining (page + 1) acc' e.drawSleep

/-- Embedding of `search_google_scholar_with_serpapi` (main.py 12–130).  When
`api_key` is falsy (`None` or empty), the source evaluates
`os.environ.get("SERPAPI_KEY")` — but `os` is never imported in main.py, so
this raises `NameError`, uncaught since the function's `try` only wraps the
per-page body.  Otherwise the page loop runs and the returned list is capped
by `all_papers[:num_results]`. -/
def search_google_scholar_with_serpapi (env : Env) (query : String) (numResults : Nat)
    (apiKey : Option String) (e : Eff) : (Except PyErr (List PaperRecord)) × Eff :=
  match apiKey with
  | none => (.error .nameError, e)
  | some key =>
    if key == "" then (.error .nameError, e)
    else
      let numPages := (numResults + 10 - 1) / 10
      match serpPages env query key numResults numPages 0 [] e with
      | (papers, e') => (.ok (papers.take numResults), e')

/-- Request of the Semantic Scholar API variant (main.py 225–236), the
parameter encoding abstracted into the URL. -/
def semApiRequest (query : String) (numResults : Nat) : Request :=
  { url := "https://api.semanticscholar.org/graph/v1/paper/search?query=" ++ urlQuote query
      ++ "&limit=" ++ toString (min numResults 100)
      ++ "&fields=title%2Cauthors%2Cabstract%2CcitationCount%2Curl%2Cyear",
    headers := [] }

/-- Mapping of one Semantic Scholar API paper to a paper dict (main.py 245–258).
Values present in the JSON — explicit nulls included — are passed through: the
fallback only fires for a missing key. -/
def semApiItemToRecord (paper : JVal) : Except PyErr PaperRecord := do
  let authorsV ← paper.get "authors" (.jarr [])
  let authorObjs ← authorsV.iter
  let names ← authorObjs.mapM (fun a => a.get "name" (.jstr ""))
  let authorsText ← if names.isEmpty then pure "No author information" else pyJoin ", " names
  let title ← paper.get "title" (.jstr "No title available")
  let abstract ← paper.get "abstract" (.jstr "No abstract available")
  let citationCount ← paper.get "citationCount" (.jnum 0)
  let link ← paper.get "url" (.jstr "")
  pure { title := title, authors := .jstr authorsText, abstract := abstract,
         citations := .jstr ("Cited by " ++ citationCount.pyStr), link := link,
         source := .jstr "Semantic Scholar API" }

/-- The `for paper in data.get("data", [])` loop (main.py 245–258): an
exception raised mid-loop propagates to the function-level `except Exception`,
after which the records appended so far are still returned. -/
def semApiProcess : List JVal → List PaperRecord → List PaperRecord
  | [], acc => acc
  | p :: rest, acc =>
    match semApiItemToRecord p with
    | .error _ => acc
    | .ok rcd => semApiProcess rest (acc ++ [rcd])

/-- Embedding of the first (API-based) definition of `search_semantic_scholar`
(main.py 217–263): a non-200 status returns the empty list (no
`raise_for_status` here), and the catch-all `except Exception` makes the
function total, returning whatever was accumulated. -/
def search_semantic_scholar_api (env : Env) (query : String) (numResults : Nat) :
    Except PyErr (List PaperRecord) :=
  match env (semApiRequest query numResults) with
  | .fail => .ok []
  | .resp status _ body =>
    if status != 200 then .ok []
    else match body.json with
      | .error _ => .ok []
      | .ok data =>
        match (do let d ← data.get "data" (.jarr []); d.iter) with
        | .error _ => .ok []
        | .ok items => .ok (semApiProcess items [])

/-- main.py defines `search_semantic_scholar` twice (lines 217 and 425).  At
module load the second `def` statement rebinds the module-level name, and no
call happens during loading, so every call to the name executes the
scrape-based implementation; the API-based one is unreachable through it. -/
def search_semantic_scholar : Env → String → Nat → Except PyErr (List PaperRecord) :=
  search_semantic_scholar_scrape

/-- Mapping of one `scholarly` publication to a paper dict (main.py 154–172).
(Joining an author value that is a string is modelled as the same caught
per-item error as any other non-list; the fallback branch is unaffected.) -/
def scholarlyItemToRecord (publication : JVal) : Except PyErr PaperRecord := do
  let bib ← publication.get "bib" (.jobj [])
  let title ← bib.get "title" (.jstr "No title available")
  let authorsV ← bib.get "author" (.jarr [])
  let authorsText ←
    if authorsV.truthy then do
      let l ← authorsV.iter
      pyJoin ", " l
    else pure "No author information"
  let abstract ← bib.get "abstract" (.jstr "No abstract available")
  let citations ← publication.get "num_citations" (.jnum 0)
  let citationText := if citations.truthy then "Cited by " ++ citations.pyStr
    else "Citations not available"
  let link ← publication.get "pub_url" (.jstr "")
  pure { title := title, authors := .jstr authorsText, abstract := abstract,
         citations := .jstr citationText, link := link,
         source := .jstr "Google Scholar via scholarly" }

/-- The per-publication loop of `try_scholarly_search` (main.py 152–183):
`remaining` iterations of `range(min(num_results, 100))` are left, `pubs` is
the rest of the generator.  An exhausted generator raises `StopIteration`,
which breaks; any other per-item error sleeps and continues; a successful
append also sleeps. -/
def scholarlyLoop : Nat → List JVal → List PaperRecord → Eff → List PaperRecord × Eff
  | 0, _, acc, e => (acc, e)
  | _ + 1, [], acc, e => (acc, e)
  | remaining + 1, p :: rest, acc, e =>
    match scholarlyItemToRecord p with
    | .ok rcd => scholarlyLoop remaining rest (acc ++ [rcd]) e.drawSleep
    | .error _ => scholarlyLoop remaining rest acc e.drawSleep

/-- Embedding of `try_scholarly_search` (main.py 133–192).  `scholarlyPubs`
models the `scholarly` library boundary: `none` when the import fails (the
`except ImportError` clause returns `[]`), otherwise the stream of
publications `scholarly.search_pubs` yields. -/
def try_scholarly_search (scholarlyPubs : Option (List JVal)) (query : String)
    (numResults : Nat) (e : Eff) : (Except PyErr (List PaperRecord)) × Eff :=
  match scholarlyPubs with
  | none => (.ok [], e)
  | some pubs =>
    let (papers, e') := scholarlyLoop (min numResults 100) pubs [] e
    (.ok papers, e')

/-- Fallback step of `multi_method_search` (main.py 211–215): after module
load, the name `search_semantic_scholar` is bound to the scrape-based
implementation. -/
def multiFallback (env : Env) (query : String) (numResults : Nat) (e : Eff) :
    (Except PyErr (List PaperRecord)) × Eff :=
  (search_semantic_scholar env query numResults, e)

/-- Method 2 of `multi_method_search` (main.py 206–209), falling through to
the Semantic Scholar fallback on an empty result. -/
def multiScholarlyStep (env : Env) (scholarlyPubs : Option (List JVal)) (query : String)
    (numResults : Nat) (e : Eff) : (Except PyErr (List PaperRecord)) × Eff :=
  match try_scholarly_search scholarlyPubs query numResults e with
  | (.error err, e') => (.error err, e')
  | (.ok papers, e') =>
    if !papers.isEmpty then (.ok papers, e')
    else multiFallback env query numResults e'

/-- Embedding of `multi_method_search` (main.py 195–215): SerpAPI when a
truthy key is supplied, then scholarly, then the Semantic Scholar fallback. -/
def multi_method_search (env : Env) (scholarlyPubs : Option (List JVal)) (query : String)
    (numResults : Nat) (serpapiKey : Option String) (e : Eff) :
    (Except PyErr (List PaperRecord)) × Eff :=
  let keyTruthy := match serpapiKey with
    | none => false
    | some k => k != ""
  if keyTruthy then
    match search_google_scholar_with_serpapi env query numResults serpapiKey e with
    | (.error err, e') => (.error err, e')
    | (.ok papers, e') =>
      if !papers.isEmpty then (.ok papers, e')
      else multiScholarlyStep env scholarlyPubs query numResults e'
  else multiScholarlyStep env scholarlyPubs query numResults e

/-- One iteration body of the source loop of `main` (main.py 823–859): the
`if`/`elif` branch selected by the source name, followed by that branch's
courtesy delay.  The `"Google Scholar"` branch calls
`search_google_scholar(search_query, num_results)` — a name no statement in
main.py ever binds — so it raises `NameError`.  A source name with no branch
contributes nothing.  `main` wraps none of the branches in a `try`, so a
raised error propagates. -/
def runSource (env : Env) (query : String) (numResults : Nat) (source : String) (e : Eff) :
    (Except PyErr (List PaperRecord)) × Eff :=
  if source == "Google Scholar" then (.error .nameError, e)
  else if source == "arXiv" then
    match search_arxiv env query numResults with
    | .ok ps => (.ok ps, e.drawSleep)
    | .error err => (.error err, e)
  else if source == "ResearchGate" then
    match search_research_gate env query numResults e with
    | (.ok ps, e') => (.ok ps, e'.drawSleep)
    | (.error err, e') => (.error err, e')
  else if source == "Semantic Scholar" then
    match search_semantic_scholar env query numResults with
    | .ok ps => (.ok ps, e.drawSleep)
    | .error err => (.error err, e)
  else if source == "CORE" then
    match search_core env query numResults with
    | .ok ps => (.ok ps, e.drawSleep)
    | .error err => (.error err, e)
  else if source == "SpringerLink" then
    match search_springer env query numResults with
    | .ok ps => (.ok ps, e.drawSleep)
    | .error err => (.error err, e)
  else if source == "ScienceDirect" then
    match search_science_direct env query numResults e with
    | (.ok ps, e') => (.ok ps, e'.drawSleep)
    | (.error err, e') => (.error err, e')
  else (.ok [], e)

/-- The aggregating loop `for i, source in enumerate(sources)` of `main`
(main.py 820–859): `papers.extend(...)` per selected source, in selection
order, with no error handling around the branches. -/
def mainSearchLoop (env : Env) (query : String) (numResults : Nat) :
    List String → List PaperRecord → Eff → (Except PyErr (List PaperRecord)) × Eff
  | [], papers, e => (.ok papers, e)
  | s :: rest, papers, e =>
    match runSource env query numResults s e with
    | (.error err, e') => (.error err, e')
    | (.ok ps, e') => mainSearchLoop env query numResults rest (papers ++ ps) e'

/-- The empty effect state a run starts from. -/
def eff0 : Eff := { rng := [], sleeps := [], reqs := [] }

/-- The record list a single selected source contributes under environment
`env` — the result component of `runSource`, which is independent of the
effect state (`runSource_fst_indep`). -/
def sourceOutput (env : Env) (query : String) (numResults : Nat) (source : String) :
    List PaperRecord :=
  match (runSource env query numResults source eff0).1 with
  | .ok ps => ps
  | .error _ => []

/-- An environment in which every request fails: a raised connection
error/timeout, an HTTP 500, or a well-formed response whose body has none of
the structure any adapter expects. -/
def FailingEnv (env : Env) : Prop :=
  ∀ r, env r = .fail ∨ env r = .resp 500 "" (.rawB "") ∨ env r = .resp 200 "" (.rawB "")

/-- Environment in which every request raises a connection error. -/
def envAllFail : Env := fun _ => .fail

/-- An arXiv feed entry with every element absent. -/
def emptyArxivEntry : ArxivEntry :=
  { titleEl := none, authors := [], summaryEl := none, idEl := none, linkEls := [],
    publishedEl := none }

/-- The all-fallback record `search_arxiv` builds from `emptyArxivEntry`. -/
def emptyArxivRecord : PaperRecord :=
  { title := .jstr "No title available", authors := .jstr "No authors available",
    abstract := .jstr "No abstract available", citations := .jstr "Published: Date unknown",
    link := .jstr "", source := .jstr "arXiv" }

/-- Environment: every request yields an arXiv-shaped page with one empty entry. -/
def envArxivOne : Env := fun _ => .resp 200 "" (.arxivB [emptyArxivEntry])

/-- A ResearchGate search-result entry with every element absent. -/
def emptyRGEntry : RGEntry :=
  { titleEl := none, authorEls := [], pubDateEl := none, statsEl := none }

/-- The all-fallback record `search_research_gate` builds from `emptyRGEntry`. -/
def emptyRGRecord : PaperRecord :=
  { title := .jstr "No title available", authors := .jstr "No authors available",
    abstract := .jstr "Abstract not available in search results. Click the link to view full details.",
    citations := .jstr "Publication info not available", link := .jstr "",
    source := .jstr "ResearchGate" }

/-- Environment: every request yields a ResearchGate-shaped page with one entry. -/
def envRGOne : Env := fun _ => .resp 200 "" (.rgB [emptyRGEntry])

/-- Environment: every request is answered with HTTP 403 (persistent
anti-scraping block). -/
def envRG403 : Env := fun _ => .resp 403 "" (.rawB "")

/-- Environment: every request redirects to an `unsupported_browser` page
(ScienceDirect's access-denial signal). -/
def envSDDenied : Env :=
  fun _ => .resp 200 "https://www.sciencedirect.com/unsupported_browser" (.rawB "")

/-- Environment: a SerpAPI page whose single organic result is the empty JSON
object (every key absent). -/
def envSerpEmptyItem : Env :=
  fun _ => .resp 200 "" (.jsonB (.jobj [("organic_results", .jarr [.jobj []])]))

/-- The all-fallback record the SerpAPI adapter builds from an empty result
item; its `link` is the empty string. -/
def serpEmptyItemRecord : PaperRecord :=
  { title := .jstr "No title available", authors := .jstr "No author information",
    abstract := .jstr "No abstract available", citations := .jstr "Citations not available",
    link := .jstr "", source := .jstr "Google Scholar via SerpAPI" }

/-- Environment: a Semantic Scholar API response whose single paper carries an
explicit `"abstract": null` (as the API does for papers without abstracts). -/
def envSemNullAbstract : Env :=
  fun _ => .resp 200 "" (.jsonB (.jobj [("data", .jarr [.jobj [("abstract", .jnull)]])]))

/-- The record the API-based Semantic Scholar adapter builds from a paper with
an explicit null abstract: the null is passed through, not replaced. -/
def semNullAbstractRecord : PaperRecord :=
  { title := .jstr "No title available", authors := .jstr "No author information",
    abstract := .jnull, citations := .jstr "Cited by 0", link := .jstr "",
    source := .jstr "Semantic Scholar API" }

/-- Environment: a Semantic Scholar API response with one empty paper object. -/
def envSemOneEmpty : Env :=
  fun _ => .resp 200 "" (.jsonB (.jobj [("data", .jarr [.jobj []])]))

/-- The all-fallback record of the API-based Semantic Scholar adapter. -/
def semApiEmptyRecord : PaperRecord :=
  { title := .jstr "No title available", authors := .jstr "No author information",
    abstract := .jstr "No abstract available", citations := .jstr "Cited by 0",
    link := .jstr "", source := .jstr "Semantic Scholar API" }

/-- The all-fallback record `scholarlyItemToRecord` builds from an empty
publication object. -/
def scholarlyEmptyRecord : PaperRecord :=
  { title := .jstr "No title available", authors := .jstr "No author information",
    abstract := .jstr "No abstract available", citations := .jstr "Citations not available",
    link := .jstr "", source := .jstr "Google Scholar via scholarly" }

/-- Environment: a Semantic-Scholar-scrape-shaped page with one empty entry. -/
def envSSOne : Env := fun _ => .resp 200 "" (.ssB [⟨none, [], none, none⟩])

/-- The all-fallback record of the scrape-based Semantic Scholar adapter. -/
def emptySSRecord : PaperRecord :=
  { title := .jstr "No title available", authors := .jstr "No authors available",
    abstract := .jstr "No abstract available", citations := .jstr "Citations not available",
    link := .jstr "", source := .jstr "Semantic Scholar" }

/-- Environment: a CORE-shaped page with one empty entry. -/
def envCoreOne : Env := fun _ => .resp 200 "" (.coreB [⟨none, none, none, none⟩])

/-- The all-fallback record of the CORE adapter. -/
def emptyCoreRecord : PaperRecord :=
  { title := .jstr "No title available", authors := .jstr "No authors available",
    abstract := .jstr "No abstract available", citations := .jstr "Publication info not available",
    link := .jstr "", source := .jstr "CORE" }

/-- Environment: a SpringerLink-shaped page with one empty entry. -/
def envSpringerOne : Env := fun _ => .resp 200 "" (.springerB [⟨none, [], none, none⟩])

/-- The all-fallback record of the SpringerLink adapter. -/
def emptySpringerRecord : PaperRecord :=
  { title := .jstr "No title available", authors := .jstr "No authors available",
    abstract := .jstr "Abstract not available on search page. Click the link to view full details.",
    citations := .jstr "Content type not specified | Date not available", link := .jstr "",
    source := .jstr "SpringerLink" }

/-- Environment: a ScienceDirect-shaped page with one empty entry. -/
def envSDOne : Env := fun _ => .resp 200 "" (.sdB [⟨none, [], none, none, none⟩])

/-- The all-fallback record of the ScienceDirect adapter. -/
def emptySDRecord : PaperRecord :=
  { title := .jstr "No title available", authors := .jstr "No authors available",
    abstract := .jstr "No abstract available", citations := .jstr "Publication info not available",
    link := .jstr "", source := .jstr "ScienceDirect" }

theorem rgLoop_fst_indep (env : Env) (url : String) (m : Nat) :
    ∀ rem retry hs papers e1 e2,
      (rgLoop env url m rem retry hs papers e1).1 = (rgLoop env url m rem retry hs papers e2).1 := by
  intro rem
  induction rem with
  | zero => intro retry hs papers e1 e2; rfl
  | succ k ih =>
    intro retry hs papers e1 e2
    unfold rgLoop
    rcases henv : env { url := url, headers := hs } with _ | ⟨status, u, body⟩
    · simp only [henv]
    · simp only [henv]
      split
      · apply ih
      · split
        · rfl
        · split
          · apply ih
          · apply ih

theorem reqExcCatch_fst {p1 p2 : (Except PyErr (List PaperRecord)) × Eff} (h : p1.1 = p2.1) :
    (reqExcCatch p1).1 = (reqExcCatch p2).1 := by
  rcases p1 with ⟨r1, f1⟩
  rcases p2 with ⟨r2, f2⟩
  simp only at h
  subst h
  cases r1 with
  | ok ps => rfl
  | error err =>
    simp only [reqExcCatch]
    split <;> rfl

theorem search_research_gate_fst_indep (env : Env) (q : String) (m : Nat) (e1 e2 : Eff) :
    (search_research_gate env q m e1).1 = (search_research_gate env q m e2).1 := by
  unfold search_research_gate
  exact reqExcCatch_fst (rgLoop_fst_indep env _ m 3 0 rgHeaders [] e1 e2)

theorem search_science_direct_fst_indep (env : Env) (q : String) (m : Nat) (e1 e2 : Eff) :
    (search_science_direct env q m e1).1 = (search_science_direct env q m e2).1 := by
  unfold search_science_direct
  rcases henv : env { url := "https://www.sciencedirect.com/search?qs=" ++ urlQuote q, headers := sdHeaders } with _ | ⟨status, u, body⟩
  · simp only [henv]
  · simp only [henv]
    split
    · rcases henv2 : env { url := "https://www.sciencedirect.com/search?qs=" ++ urlQuote q, headers := setHeader sdHeaders "User-Agent" sdAltUserAgent } with _ | ⟨s2, u2, b2⟩
      · simp only [henv2]
      · simp only [henv2]
        split
        · rfl
        · split <;> rfl
    · split <;> rfl

theorem serpPages_fst_indep (env : Env) (q k : String) (n : Nat) :
    ∀ rem page acc e1 e2,
      (serpPages env q k n rem page acc e1).1 = (serpPages env q k n rem page acc e2).1 := by
  intro rem
  induction rem with
  | zero => intro page acc e1 e2; rfl
  | succ r ih =>
    intro page acc e1 e2
    unfold serpPages
    rcases henv : env (serpRequest q k (page * 10)) with _ | ⟨status, u, body⟩
    · simp only [henv]
    · simp only [henv]
      split
      · rfl
      · rcases hj : body.json with err | data
        · simp only
        · simp only
          rcases hd : serpHandleData data n acc with acc' | acc'
          · rfl
          · apply ih

theorem serpapi_fst_indep (env : Env) (q : String) (n : Nat) (key : Option String) (e1 e2 : Eff) :
    (search_google_scholar_with_serpapi env q n key e1).1 =
      (search_google_scholar_with_serpapi env q n key e2).1 := by
  unfold search_google_scholar_with_serpapi
  split
  · rfl
  · rename_i k
    split
    · rfl
    · rcases h1 : serpPages env q k n ((n + 10 - 1) / 10) 0 [] e1 with ⟨ps1, f1⟩
      rcases h2 : serpPages env q k n ((n + 10 - 1) / 10) 0 [] e2 with ⟨ps2, f2⟩
      have hp : ps1 = ps2 := by
        have := serpPages_fst_indep env q k n ((n + 10 - 1) / 10) 0 [] e1 e2
        rw [h1, h2] at this
        exact this
      subst hp
      simp only [h1, h2]

theorem scholarlyLoop_fst_indep :
    ∀ rem pubs acc e1 e2, (scholarlyLoop rem pubs acc e1).1 = (scholarlyLoop rem pubs acc e2).1 := by
  intro rem
  induction rem with
  | zero => intro pubs acc e1 e2; rfl
  | succ r ih =>
    intro pubs acc e1 e2
    cases pubs with
    | nil => rfl
    | cons p rest =>
      unfold scholarlyLoop
      rcases h : scholarlyItemToRecord p with err | rcd <;> simp only [h] <;> apply ih

theorem try_scholarly_fst_indep (pubs : Option (List JVal)) (q : String) (n : Nat) (e1 e2 : Eff) :
    (try_scholarly_search pubs q n e1).1 = (try_scholarly_search pubs q n e2).1 := by
  cases pubs with
  | none => rfl
  | some l =>
    unfold try_scholarly_search
    rcases h1 : scholarlyLoop (min n 100) l [] e1 with ⟨ps1, f1⟩
    rcases h2 : scholarlyLoop (min n 100) l [] e2 with ⟨ps2, f2⟩
    have hp : ps1 = ps2 := by
      have := scholarlyLoop_fst_indep (min n 100) l [] e1 e2
      rw [h1, h2] at this
      exact this
    subst hp
    simp only [h1, h2]

theorem runSource_fst_indep (env : Env) (q : String) (n : Nat) (s : String) (e1 e2 : Eff) :
    (runSource env q n s e1).1 = (runSource env q n s e2).1 := by
  unfold runSource
  split
  · rfl
  · split
    · cases search_arxiv env q n <;> rfl
    · split
      · rcases h1 : search_research_gate env q n e1 with ⟨r1, f1⟩
        rcases h2 : search_research_gate env q n e2 with ⟨r2, f2⟩
        have hr : r1 = r2 := by
          have := search_research_gate_fst_indep env q n e1 e2
          rw [h1, h2] at this
          exact this
        subst hr
        cases r1 <;> rfl
      · split
        · cases search_semantic_scholar env q n <;> rfl
        · split
          · cases search_core env q n <;> rfl
          · split
            · cases search_springer env q n <;> rfl
            · split
              · rcases h1 : search_science_direct env q n e1 with ⟨r1, f1⟩
                rcases h2 : search_science_direct env q n e2 with ⟨r2, f2⟩
                have hr : r1 = r2 := by
                  have := search_science_direct_fst_indep env q n e1 e2
                  rw [h1, h2] at this
                  exact this
                subst hr
                cases r1 <;> rfl
              · rfl

theorem mainSearchLoop_concat (env : Env) (q : String) (n : Nat) :
    ∀ sources acc e papers e',
      mainSearchLoop env q n sources acc e = (.ok papers, e') →
      papers = acc ++ (sources.map (sourceOutput env q n)).flatten := by
  intro sources
  induction sources with
  | nil =>
    intro acc e papers e' h
    have h1 : (Except.ok acc : Except PyErr (List PaperRecord)) = .ok papers :=
      congrArg Prod.fst h
    injection h1 with h1
    subst h1
    simp
  | cons s rest ih =>
    intro acc e papers e' h
    unfold mainSearchLoop at h
    rcases hrs : runSource env q n s e with ⟨r, e1⟩
    rw [hrs] at h
    cases r with
    | error err => simp at h
    | ok ps =>
      have hrec := ih (acc ++ ps) e1 papers e' h
      have hfst : (runSource env q n s eff0).1 = .ok ps := by
        rw [runSource_fst_indep env q n s eff0 e, hrs]
      have hso : sourceOutput env q n s = ps := by
        unfold sourceOutput
        rw [hfst]
      subst hrec
      simp [hso, List.append_assoc]

theorem search_arxiv_failing (env : Env) (hf : FailingEnv env) (q : String) (n : Nat) :
    search_arxiv env q n = .ok [] := by
  unfold search_arxiv
  rcases hf { url := "http://export.arxiv.org/api/query?search_query=all:" ++ q.replace " " "+" ++ "&start=0&max_results=" ++ toString n, headers := [] } with h | h | h <;> simp only [h]
  · rfl
  · show (Except.ok (List.take n ([] : List PaperRecord)) : Except PyErr (List PaperRecord)) = .ok []
    rw [List.take_nil]

theorem rgLoop_failing (env : Env) (hf : FailingEnv env) (url : String) (m : Nat) :
    ∀ rem retry hs papers e,
      (rgLoop env url m rem retry hs papers e).1 = .ok papers ∨
      (rgLoop env url m rem retry hs papers e).1 = .error .requestException ∨
      (rgLoop env url m rem retry hs papers e).1 = .error (.httpError 500) := by
  intro rem
  induction rem with
  | zero => intro retry hs papers e; left; rfl
  | succ k ih =>
    intro retry hs papers e
    unfold rgLoop
    rcases hf { url := url, headers := hs } with h | h | h
    · right; left
      simp only [h]
    · right; right
      simp only [h]
      rfl
    · simp only [h]
      exact ih _ _ _ _

theorem reqExcCatch_fst_ok {p : (Except PyErr (List PaperRecord)) × Eff} {ps : List PaperRecord}
    (h : p.1 = .ok ps) : (reqExcCatch p).1 = .ok ps := by
  rcases p with ⟨r, f⟩
  simp only at h
  subst h
  rfl

theorem reqExcCatch_fst_err {p : (Except PyErr (List PaperRecord)) × Eff} {err : PyErr}
    (h : p.1 = .error err) (hc : err.isRequestExc = true) : (reqExcCatch p).1 = .ok [] := by
  rcases p with ⟨r, f⟩
  simp only at h
  subst h
  simp [reqExcCatch, hc]

theorem search_research_gate_failing (env : Env) (hf : FailingEnv env) (q : String) (m : Nat)
    (e : Eff) : (search_research_gate env q m e).1 = .ok [] := by
  unfold search_research_gate
  rcases rgLoop_failing env hf ("https://www.researchgate.net/search/publication?q=" ++ urlQuote q)
      m 3 0 rgHeaders [] e with h | h | h
  · exact reqExcCatch_fst_ok h
  · exact reqExcCatch_fst_err h rfl
  · exact reqExcCatch_fst_err h rfl

theorem search_semantic_scholar_scrape_failing (env : Env) (hf : FailingEnv env) (q : String)
    (n : Nat) : search_semantic_scholar_scrape env q n = .ok [] := by
  unfold search_semantic_scholar_scrape
  rcases hf { url := "https://www.semanticscholar.org/search?q=" ++ urlQuote q ++ "&sort=relevance", headers := ssHeaders } with h | h | h <;> simp only [h]
  · rfl
  · show (Except.ok (List.take n (List.map ssEntryToRecord (List.take n ([] : List SSEntry)))) : Except PyErr (List PaperRecord)) = .ok []
    simp

theorem search_core_failing (env : Env) (hf : FailingEnv env) (q : String) (n : Nat) :
    search_core env q n = .ok [] := by
  unfold search_core
  rcases hf { url := "https://core.ac.uk/search?q=" ++ urlQuote q, headers := coreHeaders } with h | h | h <;> simp only [h]
  · rfl
  · show (Except.ok (List.take n (List.map coreEntryToRecord (List.take n ([] : List CoreEntry)))) : Except PyErr (List PaperRecord)) = .ok []
    simp

theorem search_springer_failing (env : Env) (hf : FailingEnv env) (q : String) (n : Nat) :
    search_springer env q n = .ok [] := by
  unfold search_springer
  rcases hf { url := "https://link.springer.com/search?query=" ++ urlQuote q, headers := springerHeaders } with h | h | h <;> simp only [h]
  · rfl
  · show (Except.ok (List.take n (List.map springerEntryToRecord (List.take n ([] : List SpringerEntry)))) : Except PyErr (List PaperRecord)) = .ok []
    simp

theorem search_science_direct_failing (env : Env) (hf : FailingEnv env) (q : String) (n : Nat)
    (e : Eff) : (search_science_direct env q n e).1 = .ok [] := by
  unfold search_science_direct
  rcases hf { url := "https://www.sciencedirect.com/search?qs=" ++ urlQuote q, headers := sdHeaders } with h | h | h <;> simp only [h]
  · rfl
  · show (Except.ok (List.take n (List.map sdEntryToRecord (List.take n ([] : List SDEntry)))) : Except PyErr (List PaperRecord)) = .ok []
    simp

theorem serpPages_failing (env : Env) (hf : FailingEnv env) (q k : String) (n : Nat) :
    ∀ rem page acc e, (serpPages env q k n rem page acc e).1 = acc := by
  intro rem
  induction rem with
  | zero => intro page acc e; rfl
  | succ r ih =>
    intro page acc e
    unfold serpPages
    rcases hf (serpRequest q k (page * 10)) with h | h | h <;> simp only [h] <;> rfl

theorem serpapi_failing (env : Env) (hf : FailingEnv env) (q : String) (n : Nat) (e : Eff) :
    (search_google_scholar_with_serpapi env q n (some "k") e).1 = .ok [] := by
  unfold search_google_scholar_with_serpapi
  rcases hp : serpPages env q "k" n ((n + 10 - 1) / 10) 0 [] e with ⟨ps, f⟩
  have hps : ps = [] := by
    have := serpPages_failing env hf q "k" n ((n + 10 - 1) / 10) 0 [] e
    rw [hp] at this
    exact this
  subst hps
  simp only [hp]
  show (Except.ok (List.take n ([] : List PaperRecord)) : Except PyErr (List PaperRecord)) = .ok []
  rw [List.take_nil]

theorem search_semantic_scholar_api_failing (env : Env) (hf : FailingEnv env) (q : String)
    (n : Nat) : search_semantic_scholar_api env q n = .ok [] := by
  unfold search_semantic_scholar_api
  rcases hf (semApiRequest q n) with h | h | h <;> rw [h] <;> rfl

theorem mainSearchLoop_fst_indep (env : Env) (q : String) (n : Nat) :
    ∀ sources acc e1 e2,
      (mainSearchLoop env q n sources acc e1).1 = (mainSearchLoop env q n sources acc e2).1 := by
  intro sources
  induction sources with
  | nil => intro acc e1 e2; rfl
  | cons s rest ih =>
    intro acc e1 e2
    unfold mainSearchLoop
    rcases h1 : runSource env q n s e1 with ⟨r1, f1⟩
    rcases h2 : runSource env q n s e2 with ⟨r2, f2⟩
    have hr : r1 = r2 := by
      have := runSource_fst_indep env q n s e1 e2
      rw [h1, h2] at this
      exact this
    subst hr
    cases r1 with
    | error err => rfl
    | ok ps => apply ih

/-- C1: the claim says no error in any single adapter ever escapes the
Aggregator and that selecting Google Scholar alongside other sources must not
prevent the other sources' records from being collected.  The code violates
this: the `"Google Scholar"` branch of `main`'s source loop calls
`search_google_scholar`, a name main.py never defines, so with the UI's
default selection `["Google Scholar", "arXiv"]` the whole search raises
`NameError` and returns no records at all — while `["arXiv"]` alone succeeds
with arXiv's records. -/
theorem googleScholar_selection_aborts_search :
    (mainSearchLoop envArxivOne "q" 5 ["Google Scholar", "arXiv"] [] eff0).1 = .error .nameError
    ∧ (mainSearchLoop envArxivOne "q" 5 ["arXiv"] [] eff0).1 = .ok [emptyArxivRecord] :=
  ⟨rfl, rfl⟩

/-- C2: the claim says every adapter returns at most `maxResults` records, in
particular ResearchGate across all its retry iterations.  The code violates
this: `search_research_gate`'s retry loop has no break or return after a
successful parse, so with every attempt answering HTTP 200 with one result
item and `max_results = 1` the adapter performs all 3 iterations and returns
3 records (and never applies a final cap). -/
theorem researchGate_fetch_exceeds_maxResults :
    (search_research_gate envRGOne "q" 1 eff0).1 =
      .ok [emptyRGRecord, emptyRGRecord, emptyRGRecord]
    ∧ 1 < [emptyRGRecord, emptyRGRecord, emptyRGRecord].length
    ∧ (search_research_gate envRGOne "q" 1 eff0).2.reqs.length = 3 :=
  ⟨rfl, by decide, rfl⟩

/-- C3: for every adapter, a network failure, an HTTP error status, or a
malformed response (the expected structure absent) makes `fetch` return the
empty list, and no exception escapes the adapter boundary. -/
theorem adapter_failure_returns_empty (env : Env) (q : String) (n : Nat) (e : Eff)
    (hf : FailingEnv env) :
    search_arxiv env q n = .ok []
    ∧ (search_research_gate env q n e).1 = .ok []
    ∧ search_semantic_scholar env q n = .ok []
    ∧ search_semantic_scholar_scrape env q n = .ok []
    ∧ search_semantic_scholar_api env q n = .ok []
    ∧ search_core env q n = .ok []
    ∧ search_springer env q n = .ok []
    ∧ (search_science_direct env q n e).1 = .ok []
    ∧ (search_google_scholar_with_serpapi env q n (some "k") e).1 = .ok [] :=
  ⟨search_arxiv_failing env hf q n,
   search_research_gate_failing env hf q n e,
   search_semantic_scholar_scrape_failing env hf q n,
   search_semantic_scholar_scrape_failing env hf q n,
   search_semantic_scholar_api_failing env hf q n,
   search_core_failing env hf q n,
   search_springer_failing env hf q n,
   search_science_direct_failing env hf q n e,
   serpapi_failing env hf q n e⟩

/-- Witness for C3 at the concrete environment where every request raises a
connection error. -/
theorem adapter_failure_returns_empty_witness :
    search_arxiv envAllFail "q" 5 = .ok []
    ∧ (search_research_gate envAllFail "q" 5 eff0).1 = .ok []
    ∧ search_semantic_scholar envAllFail "q" 5 = .ok []
    ∧ search_semantic_scholar_scrape envAllFail "q" 5 = .ok []
    ∧ search_semantic_scholar_api envAllFail "q" 5 = .ok []
    ∧ search_core envAllFail "q" 5 = .ok []
    ∧ search_springer envAllFail "q" 5 = .ok []
    ∧ (search_science_direct envAllFail "q" 5 eff0).1 = .ok []
    ∧ (search_google_scholar_with_serpapi envAllFail "q" 5 (some "k") eff0).1 = .ok [] :=
  adapter_failure_returns_empty envAllFail "q" 5 eff0 (fun r => Or.inl rfl)

/-- C4 counterexample: the claim says every field of every returned record is
a non-empty string, with a fallback substituted even for an explicit null.
The code violates this twice: the SerpAPI adapter's `link` falls back to the
empty string, and the API-based Semantic Scholar adapter passes an explicit
`"abstract": null` through as `None` instead of substituting the fallback
(because `dict.get(k, default)` only defaults on a missing key). -/
theorem record_fields_counterexample :
    (search_google_scholar_with_serpapi envSerpEmptyItem "q" 1 (some "k") eff0).1 =
      .ok [serpEmptyItemRecord]
    ∧ serpEmptyItemRecord.link = .jstr ""
    ∧ search_semantic_scholar_api envSemNullAbstract "q" 5 = .ok [semNullAbstractRecord]
    ∧ semNullAbstractRecord.abstract = .jnull :=
  ⟨rfl, rfl, rfl, rfl⟩

/-- C4 amended: every adapter substitutes a fallback string only for a missing
key/element; the fallbacks for title, authors, abstract and citations are
non-empty, but the `link` fallback is the empty string, and a value the remote
API supplies explicitly — including a null abstract from Semantic Scholar —
is passed through unchanged. -/
theorem record_fields_fallback_amended :
    search_arxiv envArxivOne "q" 5 = .ok [emptyArxivRecord]
    ∧ emptyArxivRecord.title = .jstr "No title available"
    ∧ emptyArxivRecord.link = .jstr ""
    ∧ (search_google_scholar_with_serpapi envSerpEmptyItem "q" 1 (some "k") eff0).1 =
        .ok [serpEmptyItemRecord]
    ∧ serpEmptyItemRecord.title = .jstr "No title available"
    ∧ serpEmptyItemRecord.abstract = .jstr "No abstract available"
    ∧ serpEmptyItemRecord.citations = .jstr "Citations not available"
    ∧ serpEmptyItemRecord.link = .jstr ""
    ∧ search_semantic_scholar_api envSemNullAbstract "q" 5 = .ok [semNullAbstractRecord]
    ∧ semNullAbstractRecord.abstract = .jnull
    ∧ semNullAbstractRecord.link = .jstr "" :=
  ⟨rfl, rfl, rfl, rfl, rfl, rfl, rfl, rfl, rfl, rfl, rfl⟩

/-- C5: whenever the aggregating loop of `main` returns normally, the
aggregated list is exactly the concatenation of each selected source's
adapter output, in the order the sources were selected. -/
theorem aggregated_output_is_selected_concatenation (env : Env) (q : String) (n : Nat)
    (sources : List String) (e : Eff) (papers : List PaperRecord) (e' : Eff)
    (h : mainSearchLoop env q n sources [] e = (.ok papers, e')) :
    papers = (sources.map (sourceOutput env q n)).flatten := by
  have hc := mainSearchLoop_concat env q n sources [] e papers e' h
  rw [List.nil_append] at hc
  exact hc

/-- Witness for C5 at a concrete run over `["arXiv", "CORE"]`. -/
theorem aggregated_output_is_selected_concatenation_witness :
    ([emptyArxivRecord] : List PaperRecord) =
      ((["arXiv", "CORE"].map (sourceOutput envArxivOne "q" 5)).flatten) :=
  aggregated_output_is_selected_concatenation envArxivOne "q" 5 ["arXiv", "CORE"] eff0
    [emptyArxivRecord] { rng := [], sleeps := [0, 0], reqs := [] } rfl

/-- C6 counterexample: the claim says both ResearchGate and ScienceDirect
rotate a pool of client-identity strings and retry up to 3 times on an
access-denial response.  ScienceDirect does not: under a persistent
`unsupported_browser` access denial it issues exactly 2 requests — the
original and a single retry with its one alternate user-agent — and gives
up, never reaching a third attempt. -/
theorem scienceDirect_retry_pool_counterexample :
    (search_science_direct envSDDenied "q" 5 eff0).1 = .ok []
    ∧ (search_science_direct envSDDenied "q" 5 eff0).2.reqs.length = 2
    ∧ ((search_science_direct envSDDenied "q" 5 eff0).2.reqs.map
        (fun r => r.headers.lookup "User-Agent"))
      = [some "Mozilla/5.0 (Windows NT 10.0; Win64; x64) AppleWebKit/537.36 (KHTML, like Gecko) Chrome/114.0.0.0 Safari/537.36",
         some sdAltUserAgent] :=
  ⟨rfl, rfl, rfl⟩

/-- C6 amended: on an access-denial response, ResearchGate rotates a pool of 3
alternate user-agent strings and makes at most 3 attempts in total (under a
persistent HTTP 403 it issues exactly 3 requests, with user-agents: the
initial one, then pool entries 0 and 1), while ScienceDirect retries exactly
once with its single alternate user-agent before giving up. -/
theorem retry_identity_rotation_amended :
    (search_research_gate envRG403 "q" 5 eff0).1 = .ok []
    ∧ (search_research_gate envRG403 "q" 5 eff0).2.reqs.length = 3
    ∧ ((search_research_gate envRG403 "q" 5 eff0).2.reqs.map
        (fun r => r.headers.lookup "User-Agent"))
      = [some "Mozilla/5.0 (Windows NT 10.0; Win64; x64) AppleWebKit/537.36 (KHTML, like Gecko) Chrome/114.0.0.0 Safari/537.36",
         some (rgUserAgents.getD 0 ""), some (rgUserAgents.getD 1 "")]
    ∧ rgUserAgents.length = 3
    ∧ (search_science_direct envSDDenied "q" 5 eff0).2.reqs.length = 2
    ∧ ((search_science_direct envSDDenied "q" 5 eff0).2.reqs.map
        (fun r => r.headers.lookup "User-Agent"))
      = [some "Mozilla/5.0 (Windows NT 10.0; Win64; x64) AppleWebKit/537.36 (KHTML, like Gecko) Chrome/114.0.0.0 Safari/537.36",
         some sdAltUserAgent] :=
  ⟨rfl, rfl, rfl, rfl, rfl, rfl⟩

/-- C7 counterexample: the claim says every adapter's authors fallback is the
literal `"No author information"`.  The arXiv adapter (like all the scrape
adapters) uses `"No authors available"` instead, a different string. -/
theorem authors_fallback_literal_counterexample :
    search_arxiv envArxivOne "q" 5 = .ok [emptyArxivRecord]
    ∧ emptyArxivRecord.authors = .jstr "No authors available"
    ∧ (("No authors available" : String) == "No author information") = false :=
  ⟨rfl, rfl, by decide⟩

/-- C7 amended: the SerpAPI, scholarly and Semantic-Scholar-API adapters use
the fallback `"No author information"`; the scrape adapters (arXiv,
ResearchGate, Semantic Scholar scrape, CORE, SpringerLink, ScienceDirect) use
`"No authors available"`. -/
theorem authors_fallback_literal_amended :
    (search_google_scholar_with_serpapi envSerpEmptyItem "q" 1 (some "k") eff0).1 =
        .ok [serpEmptyItemRecord]
    ∧ serpEmptyItemRecord.authors = .jstr "No author information"
    ∧ (try_scholarly_search (some [.jobj []]) "q" 5 eff0).1 = .ok [scholarlyEmptyRecord]
    ∧ scholarlyEmptyRecord.authors = .jstr "No author information"
    ∧ search_semantic_scholar_api envSemOneEmpty "q" 5 = .ok [semApiEmptyRecord]
    ∧ semApiEmptyRecord.authors = .jstr "No author information"
    ∧ search_arxiv envArxivOne "q" 5 = .ok [emptyArxivRecord]
    ∧ emptyArxivRecord.authors = .jstr "No authors available"
    ∧ (search_research_gate envRGOne "q" 1 eff0).1 =
        .ok [emptyRGRecord, emptyRGRecord, emptyRGRecord]
    ∧ emptyRGRecord.authors = .jstr "No authors available"
    ∧ search_semantic_scholar envSSOne "q" 5 = .ok [emptySSRecord]
    ∧ emptySSRecord.authors = .jstr "No authors available"
    ∧ search_core envCoreOne "q" 5 = .ok [emptyCoreRecord]
    ∧ emptyCoreRecord.authors = .jstr "No authors available"
    ∧ search_springer envSpringerOne "q" 5 = .ok [emptySpringerRecord]
    ∧ emptySpringerRecord.authors = .jstr "No authors available"
    ∧ (search_science_direct envSDOne "q" 5 eff0).1 = .ok [emptySDRecord]
    ∧ emptySDRecord.authors = .jstr "No authors available" :=
  ⟨rfl, rfl, rfl, rfl, rfl, rfl, rfl, rfl, rfl, rfl, rfl, rfl, rfl, rfl, rfl, rfl, rfl, rfl⟩

/-- C8: main.py defines `search_semantic_scholar` twice; after module load the
name is bound to the second, scrape-based implementation — the Aggregator's
Semantic Scholar branch and `multi_method_search`'s fallback both execute it —
and the two implementations are not equivalent: on the same environment the
API-based one returns a record (with source `"Semantic Scholar API"`) where
the scrape-based one returns none. -/
theorem search_semantic_scholar_shadowing :
    search_semantic_scholar = search_semantic_scholar_scrape
    ∧ (∀ env q n e, (runSource env q n "Semantic Scholar" e).1 =
        search_semantic_scholar_scrape env q n)
    ∧ (∀ env q n e, (multi_method_search env none q n none e).1 =
        search_semantic_scholar_scrape env q n)
    ∧ search_semantic_scholar_api envSemOneEmpty "q" 5 = .ok [semApiEmptyRecord]
    ∧ search_semantic_scholar_scrape envSemOneEmpty "q" 5 = .ok []
    ∧ semApiEmptyRecord.source = .jstr "Semantic Scholar API" := by
  refine ⟨rfl, ?_, ?_, rfl, rfl, rfl⟩
  · intro env q n e
    show (match search_semantic_scholar env q n with
      | .ok ps => ((.ok ps : Except PyErr (List PaperRecord)), e.drawSleep)
      | .error err => (.error err, e)).1 = search_semantic_scholar_scrape env q n
    rcases h : search_semantic_scholar env q n with err | ps <;> exact h.symm
  · intro env q n e
    rfl

/-- C9: calling `search_google_scholar_with_serpapi` with no API key (`None`,
the parameter's default) reaches `os.environ.get("SERPAPI_KEY")`, but `os` is
never imported in main.py, so the call raises `NameError` — instead of
displaying the documented error message and returning an empty list. -/
theorem serpapi_missing_key_raises_nameError (env : Env) (q : String) (n : Nat) (e : Eff) :
    (search_google_scholar_with_serpapi env q n none e).1 = .error .nameError :=
  rfl

/-- C10: with the environment (the request-to-response mapping), the query and
the result bound fixed, the records every randomized-delay routine returns are
identical across any two random streams/effect states: the randomized
inter-request and retry delays affect timing only, never the content or order
of the returned records.  The remaining adapters draw no randomness at all
(they do not even take the effect state). -/
theorem fetch_records_independent_of_rng (env : Env) (q : String) (n : Nat)
    (key : Option String) (pubs : Option (List JVal)) (e1 e2 : Eff) :
    (search_google_scholar_with_serpapi env q n key e1).1 =
      (search_google_scholar_with_serpapi env q n key e2).1
    ∧ (search_research_gate env q n e1).1 = (search_research_gate env q n e2).1
    ∧ (search_science_direct env q n e1).1 = (search_science_direct env q n e2).1
    ∧ (try_scholarly_search pubs q n e1).1 = (try_scholarly_search pubs q n e2).1
    ∧ ∀ sources, (mainSearchLoop env q n sources [] e1).1 =
        (mainSearchLoop env q n sources [] e2).1 :=
  ⟨serpapi_fst_indep env q n key e1 e2,
   search_research_gate_fst_indep env q n e1 e2,
   search_science_direct_fst_indep env q n e1 e2,
   try_scholarly_fst_indep pubs q n e1 e2,
   fun sources => mainSearchLoop_fst_indep env q n sources [] e1 e2⟩
